import Mathlib

/-!
Shallow embedding of the lab-companion authorization and workflow core.

The data model and the row-level policies are translated from
`supabase/migrations/20260210140845_*.sql` (tables, helper functions,
policies) and `supabase/migrations/20260217173141_*.sql` (the replacement
insert policy on `student_subjects`).  The submission and evaluation
workflow handlers are translated from the UI pages (`submitCode`,
`submitEvaluation`), and the code-execution proxy from
`supabase/functions/execute-code/index.ts`.
-/

namespace LabCompanion

/-- The `app_role` enum from the schema. -/
inductive Role where
  | admin
  | faculty
  | student
deriving DecidableEq, BEq, Repr

/-- The closed department set enforced by the CHECK constraints. -/
inductive Department where
  | CSE
  | IT
  | AIDS
deriving DecidableEq, BEq, Repr

/-- The `status` CHECK enumeration on `experiment_submissions`. -/
inductive Status where
  | draft
  | submitted
  | evaluated
deriving DecidableEq, BEq, Repr

/-- A row of `public.profiles`. -/
structure Profile where
  id : Nat
  full_name : String
  role : Role
  department : Option Department
deriving DecidableEq, Repr

/-- A row of `public.subjects`. -/
structure Subject where
  id : Nat
  name : String
  code : Option String
  department : Option Department
deriving DecidableEq, Repr

/-- A row of `public.experiments`. -/
structure Experiment where
  id : Nat
  subject_id : Nat
  title : String
  experiment_number : Option Nat
deriving DecidableEq, Repr

/-- A row of `public.student_subjects` (an Enrollment edge). -/
structure Enrollment where
  id : Nat
  student_id : Nat
  subject_id : Nat
deriving DecidableEq, Repr

/-- A row of `public.faculty_subjects` (an Assignment edge). -/
structure Assignment where
  id : Nat
  faculty_id : Nat
  subject_id : Nat
deriving DecidableEq, Repr

/-- A row of `public.experiment_submissions`. -/
structure Submission where
  id : Nat
  experiment_id : Nat
  student_id : Nat
  code : Option String
  language : Option String
  file_url : Option String
  status : Status
deriving DecidableEq, Repr

/-- A row of `public.evaluations`. -/
structure Evaluation where
  id : Nat
  submission_id : Nat
  faculty_id : Nat
  marks : Option Int
  feedback : Option String
deriving DecidableEq, Repr

/-- The datastore: `auth.users` identifiers plus the seven tables. -/
structure DB where
  users : List Nat
  profiles : List Profile
  subjects : List Subject
  experiments : List Experiment
  studentSubjects : List Enrollment
  facultySubjects : List Assignment
  submissions : List Submission
  evaluations : List Evaluation
deriving DecidableEq, Repr

/-- `public.is_admin()`: the caller has a profile row with role `admin`. -/
def is_admin (db : DB) (uid : Nat) : Bool :=
  db.profiles.any (fun p => p.id == uid && p.role == Role.admin)

/-- `public.is_faculty_for_subject(_subject_id)`: an Assignment edge
`(uid, sid)` exists in `faculty_subjects`. -/
def is_faculty_for_subject (db : DB) (uid sid : Nat) : Bool :=
  db.facultySubjects.any (fun fs => fs.faculty_id == uid && fs.subject_id == sid)

/-- `public.is_student_for_subject(_subject_id)`: an Enrollment edge
`(uid, sid)` exists in `student_subjects`. -/
def is_student_for_subject (db : DB) (uid sid : Nat) : Bool :=
  db.studentSubjects.any (fun en => en.student_id == uid && en.subject_id == sid)

/-! ## Row-level policies, translated clause by clause from the migrations. -/

/-- Policy `profiles_select`: `USING (true)`. -/
def profiles_select (_db : DB) (_uid : Nat) (_row : Profile) : Bool :=
  true

/-- Policy `profiles_update_own`: `USING (id = auth.uid() OR is_admin())`. -/
def profiles_update_own (db : DB) (uid : Nat) (row : Profile) : Bool :=
  row.id == uid || is_admin db uid

/-- Policy `subjects_insert_admin` (also update and delete): `is_admin()`. -/
def subjects_admin_only (db : DB) (uid : Nat) (_row : Subject) : Bool :=
  is_admin db uid

/-- Policies `experiments_insert` and `experiments_update`:
`is_admin() OR is_faculty_for_subject(subject_id)`. -/
def experiments_write (db : DB) (uid : Nat) (row : Experiment) : Bool :=
  is_admin db uid || is_faculty_for_subject db uid row.subject_id

/-- Policy `experiments_delete`: `is_admin()`. -/
def experiments_delete (db : DB) (uid : Nat) (_row : Experiment) : Bool :=
  is_admin db uid

/-- Policy `student_subjects_select`. -/
def student_subjects_select (db : DB) (uid : Nat) (row : Enrollment) : Bool :=
  is_admin db uid || row.student_id == uid ||
    is_faculty_for_subject db uid row.subject_id

/-- Original policy `student_subjects_insert` of the first migration:
`WITH CHECK (is_admin())`. -/
def student_subjects_insert_v1 (db : DB) (uid : Nat) (_row : Enrollment) : Bool :=
  is_admin db uid

/-- Replacement policy `student_subjects_insert` of the second migration:
`WITH CHECK (student_id = auth.uid() OR is_admin())`. -/
def student_subjects_insert_v2 (db : DB) (uid : Nat) (row : Enrollment) : Bool :=
  row.student_id == uid || is_admin db uid

/-- Policy `student_subjects_delete`: `is_admin()`. -/
def student_subjects_delete (db : DB) (uid : Nat) (_row : Enrollment) : Bool :=
  is_admin db uid

/-- Policy `faculty_subjects_select`: `is_admin() OR faculty_id = auth.uid()`. -/
def faculty_subjects_select (db : DB) (uid : Nat) (row : Assignment) : Bool :=
  is_admin db uid || row.faculty_id == uid

/-- Policies `faculty_subjects_insert` and `faculty_subjects_delete`. -/
def faculty_subjects_admin_only (db : DB) (uid : Nat) (_row : Assignment) : Bool :=
  is_admin db uid

/-- Policy `submissions_select`: admin, the owning student, or a faculty
member assigned to the subject of the owning experiment (the SQL EXISTS
over `experiments` joined with `faculty_subjects`). -/
def submissions_select (db : DB) (uid : Nat) (row : Submission) : Bool :=
  is_admin db uid || row.student_id == uid ||
    db.experiments.any (fun e =>
      e.id == row.experiment_id &&
        db.facultySubjects.any (fun fs =>
          e.subject_id == fs.subject_id && fs.faculty_id == uid))

/-- Policy `submissions_insert`: `WITH CHECK (student_id = auth.uid())`. -/
def submissions_insert (_db : DB) (uid : Nat) (row : Submission) : Bool :=
  row.student_id == uid

/-- Policy `submissions_update`: `USING (is_admin() OR student_id = auth.uid())`. -/
def submissions_update (db : DB) (uid : Nat) (row : Submission) : Bool :=
  is_admin db uid || row.student_id == uid

/-- Policy `evaluations_select`: admin, the authoring faculty, or the
owning student of the evaluated submission (the SQL EXISTS over
`experiment_submissions`). -/
def evaluations_select (db : DB) (uid : Nat) (row : Evaluation) : Bool :=
  is_admin db uid || row.faculty_id == uid ||
    db.submissions.any (fun es =>
      es.id == row.submission_id && es.student_id == uid)

/-- Policy `evaluations_insert`: admin, or the named faculty provided the
two-hop chain resolves — the SQL EXISTS joins `experiment_submissions`
with `experiments` and `faculty_subjects` and requires
`fs.faculty_id = auth.uid()`. -/
def evaluations_insert (db : DB) (uid : Nat) (row : Evaluation) : Bool :=
  is_admin db uid ||
    (row.faculty_id == uid &&
      db.submissions.any (fun es =>
        es.id == row.submission_id &&
          db.experiments.any (fun e =>
            es.experiment_id == e.id &&
              db.facultySubjects.any (fun fs =>
                e.subject_id == fs.subject_id && fs.faculty_id == uid))))

/-- Policy `evaluations_update`: `USING (is_admin() OR faculty_id = auth.uid())`. -/
def evaluations_update (db : DB) (uid : Nat) (row : Evaluation) : Bool :=
  is_admin db uid || row.faculty_id == uid

/-! ## The Policy Evaluator dispatch over the policy set. -/

/-- The four row-level actions. -/
inductive Action where
  | select
  | insert
  | update
  | delete
deriving DecidableEq, BEq, Repr

/-- A resource reference: one row of one of the seven tables. -/
inductive Resource where
  | profile (row : Profile)
  | subject (row : Subject)
  | experiment (row : Experiment)
  | enrollment (row : Enrollment)
  | assignment (row : Assignment)
  | submission (row : Submission)
  | evaluation (row : Evaluation)
deriving DecidableEq, Repr

/-- The Policy Evaluator over the final schema (the `student_subjects`
insert policy is the second migration's version).  A table-action pair
for which the migrations create no policy is denied, matching the
default-deny of row-level security. -/
def Authorize (db : DB) (uid : Nat) (a : Action) (r : Resource) : Bool :=
  match r, a with
  | .profile row, .select => profiles_select db uid row
  | .profile row, .update => profiles_update_own db uid row
  | .profile _, _ => false
  | .subject _, .select => true
  | .subject row, .insert => subjects_admin_only db uid row
  | .subject row, .update => subjects_admin_only db uid row
  | .subject row, .delete => subjects_admin_only db uid row
  | .experiment _, .select => true
  | .experiment row, .insert => experiments_write db uid row
  | .experiment row, .update => experiments_write db uid row
  | .experiment row, .delete => experiments_delete db uid row
  | .enrollment row, .select => student_subjects_select db uid row
  | .enrollment row, .insert => student_subjects_insert_v2 db uid row
  | .enrollment row, .delete => student_subjects_delete db uid row
  | .enrollment _, .update => false
  | .assignment row, .select => faculty_subjects_select db uid row
  | .assignment row, .insert => faculty_subjects_admin_only db uid row
  | .assignment row, .delete => faculty_subjects_admin_only db uid row
  | .assignment _, .update => false
  | .submission row, .select => submissions_select db uid row
  | .submission row, .insert => submissions_insert db uid row
  | .submission row, .update => submissions_update db uid row
  | .submission _, .delete => false
  | .evaluation row, .select => evaluations_select db uid row
  | .evaluation row, .insert => evaluations_insert db uid row
  | .evaluation row, .update => evaluations_update db uid row
  | .evaluation _, .delete => false

/-- Whether the migrations create a policy for the given action on the
given resource's table. -/
def hasPolicy (a : Action) (r : Resource) : Bool :=
  match r, a with
  | .profile _, .select => true
  | .profile _, .update => true
  | .profile _, _ => false
  | .subject _, _ => true
  | .experiment _, _ => true
  | .enrollment _, .update => false
  | .enrollment _, _ => true
  | .assignment _, .update => false
  | .assignment _, _ => true
  | .submission _, .delete => false
  | .submission _, _ => true
  | .evaluation _, .delete => false
  | .evaluation _, _ => true

/-! ## Submission and evaluation workflow handlers. -/

/-- `submitCode` from the code-editor page: look up the caller's existing
submission for the experiment (the select is visible to the owner under
`submissions_select`); if one exists, update its code, language and
status to `submitted` (rows not passing `submissions_update` are left
untouched, as row-level security silently skips them); otherwise insert a
new row with status `submitted`, subject to the `submissions_insert`
check and the uniqueness constraint on `(experiment_id, student_id)`. -/
def submitCode (db : DB) (uid expId newId : Nat) (codeText lang : String) : DB :=
  match db.submissions.find? (fun s =>
      s.student_id == uid && s.experiment_id == expId &&
        submissions_select db uid s) with
  | some existing =>
      { db with submissions := db.submissions.map (fun s =>
          if s.id == existing.id && submissions_update db uid s then
            { s with code := some codeText, language := some lang,
                     status := Status.submitted }
          else s) }
  | none =>
      let row : Submission :=
        ⟨newId, expId, uid, some codeText, some lang, none, Status.submitted⟩
      if submissions_insert db uid row &&
          !(db.submissions.any (fun s =>
              s.experiment_id == expId && s.student_id == uid)) then
        { db with submissions := row :: db.submissions }
      else db

/-- The JavaScript `trim()` used on the feedback text: strip leading and
trailing whitespace. -/
def jsTrim (s : String) : String :=
  String.mk (((s.data.dropWhile Char.isWhitespace).reverse.dropWhile
    Char.isWhitespace).reverse)

/-- The JavaScript `toLowerCase()` used on the language tag. -/
def jsToLower (s : String) : String :=
  String.mk (s.data.map Char.toLower)

/-- Outcomes of a rejected write in the evaluation workflow. -/
inductive WriteError where
  | validation
  | conflict
  | denied
deriving DecidableEq, Repr

/-- The second write of `submitEvaluation`: set the submission's status to
`evaluated`.  Under row-level security only rows passing
`submissions_update` are updated. -/
def flipStatus (db : DB) (uid subId : Nat) : DB :=
  { db with submissions := db.submissions.map (fun s =>
      if s.id == subId && submissions_update db uid s then
        { s with status := Status.evaluated }
      else s) }

/-- `submitEvaluation` from the faculty evaluation page: reject marks
outside `[0, 100]` and empty feedback before any write; look up an
existing evaluation for the submission (visible rows only, per
`evaluations_select`); update it in place if found (rows not passing
`evaluations_update` are skipped), else insert a new row subject to the
`evaluations_insert` check and the uniqueness constraint on
`submission_id`; finally attempt the status flip to `evaluated`. -/
def submitEvaluation (db : DB) (uid subId newId : Nat) (marksNum : Int)
    (feedback : String) : Except WriteError DB :=
  if marksNum < 0 || marksNum > 100 then .error .validation
  else if jsTrim feedback == "" then .error .validation
  else
    match db.evaluations.find? (fun ev =>
        ev.submission_id == subId && evaluations_select db uid ev) with
    | some existing =>
        let db1 : DB :=
          { db with evaluations := db.evaluations.map (fun ev =>
              if ev.id == existing.id && evaluations_update db uid ev then
                { ev with marks := some marksNum,
                          feedback := some (jsTrim feedback) }
              else ev) }
        .ok (flipStatus db1 uid subId)
    | none =>
        if evaluations_insert db uid
            ⟨newId, subId, uid, some marksNum, some (jsTrim feedback)⟩ then
          if db.evaluations.any (fun ev => ev.submission_id == subId) then
            .error .conflict
          else
            .ok (flipStatus
                  { db with evaluations :=
                      ⟨newId, subId, uid, some marksNum, some (jsTrim feedback)⟩
                        :: db.evaluations }
                  uid subId)
        else .error .denied

/-- The datastore a caller observes after a call settles: the new state on
success, the unchanged state on any error. -/
def afterCall (db : DB) (r : Except WriteError DB) : DB :=
  match r with
  | .ok db1 => db1
  | .error _ => db

/-- Whether a workflow write settled successfully. -/
def writeSucceeded (r : Except WriteError DB) : Bool :=
  match r with
  | .ok _ => true
  | .error _ => false

/-- Number of evaluation rows keyed by a submission identifier. -/
def countEval (db : DB) (subId : Nat) : Nat :=
  (db.evaluations.filter (fun ev => ev.submission_id == subId)).length

/-! ## Provisioning trigger. -/

/-- The identity-creation event consumed by `handle_new_user`: the new
identifier plus the optional signup metadata fields. -/
structure SignupEvent where
  id : Nat
  full_name : Option String
  role : Option Role
  department : Option Department
deriving DecidableEq, Repr

/-- `public.handle_new_user`: insert exactly one profile for the new
identity, coalescing a missing full name to the empty string, a missing
role to `student` and a missing department to `CSE`. -/
def handle_new_user (db : DB) (ev : SignupEvent) : DB :=
  { db with
      users := ev.id :: db.users,
      profiles :=
        ⟨ev.id, ev.full_name.getD "", ev.role.getD Role.student,
          some (ev.department.getD Department.CSE)⟩ :: db.profiles }

/-! ## Code-execution proxy. -/

/-- A request body for the `execute-code` function. -/
structure ExecRequest where
  code : Option String
  language : Option String
  stdin : Option String
deriving DecidableEq, Repr

/-- The `LANGUAGE_MAP` table of the proxy: supported language tag to the
upstream language and version. -/
def LANGUAGE_MAP : String → Option (String × String)
  | "python" => some ("python", "3.10.0")
  | "javascript" => some ("javascript", "18.15.0")
  | "java" => some ("java", "15.0.2")
  | "c" => some ("c", "10.2.0")
  | "cpp" => some ("c++", "10.2.0")
  | "c++" => some ("c++", "10.2.0")
  | _ => none

/-- JavaScript truthiness of an optional string field: absent and empty
strings are falsy. -/
def truthyField (o : Option String) : Bool :=
  match o with
  | none => false
  | some s => !(s == "")

/-- Outcome of the proxy handler: an HTTP client error, or a request
forwarded to the external sandbox. -/
inductive ExecOutcome where
  | clientError (status : Nat) (msg : String)
  | forwarded (language version codeText stdin : String)
deriving DecidableEq, Repr

/-- The `serve` handler of `execute-code/index.ts`: reject a missing (or
falsy) code or language with HTTP 400; reject an unsupported language
tag with HTTP 400; otherwise forward to the sandbox with the mapped
language and version. -/
def handleExecute (req : ExecRequest) : ExecOutcome :=
  if !(truthyField req.code) || !(truthyField req.language) then
    .clientError 400 "Code and language are required"
  else
    match LANGUAGE_MAP (jsToLower (req.language.getD "")) with
    | none =>
        .clientError 400 ("Unsupported language: " ++ req.language.getD "")
    | some cfg =>
        .forwarded cfg.1 cfg.2 (req.code.getD "") (req.stdin.getD "")

/-! ## Cascade deletion. -/

/-- A delete issued against one table, identified by primary key. -/
inductive DelOp where
  | user (id : Nat)
  | subject (id : Nat)
  | experiment (id : Nat)
  | enrollment (id : Nat)
  | assignment (id : Nat)
  | submission (id : Nat)
  | evaluation (id : Nat)
deriving DecidableEq, Repr

/-- Apply one delete with the `ON DELETE CASCADE` semantics declared on
every foreign key of the schema: children of a deleted row are deleted
with it, transitively. -/
def applyDelete (db : DB) (op : DelOp) : DB :=
  match op with
  | .user u =>
      let deadSubs := db.submissions.filter (fun s => s.student_id == u)
      { db with
          users := db.users.filter (fun x => !(x == u)),
          profiles := db.profiles.filter (fun p => !(p.id == u)),
          studentSubjects :=
            db.studentSubjects.filter (fun en => !(en.student_id == u)),
          facultySubjects :=
            db.facultySubjects.filter (fun a => !(a.faculty_id == u)),
          submissions := db.submissions.filter (fun s => !(s.student_id == u)),
          evaluations := db.evaluations.filter (fun v =>
            !(v.faculty_id == u) &&
              !(deadSubs.any (fun s => s.id == v.submission_id))) }
  | .subject sid =>
      let deadExps := db.experiments.filter (fun e => e.subject_id == sid)
      let deadSubs := db.submissions.filter (fun s =>
        deadExps.any (fun e => e.id == s.experiment_id))
      { db with
          subjects := db.subjects.filter (fun x => !(x.id == sid)),
          experiments := db.experiments.filter (fun e => !(e.subject_id == sid)),
          studentSubjects :=
            db.studentSubjects.filter (fun en => !(en.subject_id == sid)),
          facultySubjects :=
            db.facultySubjects.filter (fun a => !(a.subject_id == sid)),
          submissions := db.submissions.filter (fun s =>
            !(deadExps.any (fun e => e.id == s.experiment_id))),
          evaluations := db.evaluations.filter (fun v =>
            !(deadSubs.any (fun s => s.id == v.submission_id))) }
  | .experiment eid =>
      let deadSubs := db.submissions.filter (fun s => s.experiment_id == eid)
      { db with
          experiments := db.experiments.filter (fun e => !(e.id == eid)),
          submissions := db.submissions.filter (fun s =>
            !(s.experiment_id == eid)),
          evaluations := db.evaluations.filter (fun v =>
            !(deadSubs.any (fun s => s.id == v.submission_id))) }
  | .enrollment i =>
      { db with studentSubjects :=
          db.studentSubjects.filter (fun en => !(en.id == i)) }
  | .assignment i =>
      { db with facultySubjects :=
          db.facultySubjects.filter (fun a => !(a.id == i)) }
  | .submission sid =>
      { db with
          submissions := db.submissions.filter (fun s => !(s.id == sid)),
          evaluations := db.evaluations.filter (fun v =>
            !(v.submission_id == sid)) }
  | .evaluation vid =>
      { db with evaluations := db.evaluations.filter (fun v => !(v.id == vid)) }

/-- Referential integrity: every foreign key of every row resolves to a
live parent row. -/
def refIntegrity (db : DB) : Bool :=
  db.profiles.all (fun p => db.users.any (fun x => x == p.id)) &&
  db.experiments.all (fun e =>
    db.subjects.any (fun s => s.id == e.subject_id)) &&
  db.studentSubjects.all (fun en =>
    db.users.any (fun x => x == en.student_id) &&
      db.subjects.any (fun s => s.id == en.subject_id)) &&
  db.facultySubjects.all (fun a =>
    db.users.any (fun x => x == a.faculty_id) &&
      db.subjects.any (fun s => s.id == a.subject_id)) &&
  db.submissions.all (fun sub =>
    db.experiments.any (fun e => e.id == sub.experiment_id) &&
      db.users.any (fun x => x == sub.student_id)) &&
  db.evaluations.all (fun v =>
    db.submissions.any (fun s => s.id == v.submission_id) &&
      db.users.any (fun x => x == v.faculty_id))

/-! ## Claim theorems. -/

/-- C1: inserting an Evaluation is authorized exactly when the caller is
an admin, or the caller is the evaluation's named faculty and an
Assignment edge to the subject reached through the chain
Evaluation to Submission to Experiment to Subject exists; a chain with
any unresolvable link denies the non-admin branch. -/
theorem evaluations_insert_characterization (db : DB) (uid : Nat)
    (row : Evaluation) :
    Authorize db uid Action.insert (Resource.evaluation row) = true ↔
      (is_admin db uid = true ∨
        (row.faculty_id = uid ∧
          ∃ es ∈ db.submissions, es.id = row.submission_id ∧
            ∃ e ∈ db.experiments, es.experiment_id = e.id ∧
              ∃ fs ∈ db.facultySubjects,
                e.subject_id = fs.subject_id ∧ fs.faculty_id = uid)) := by
  simp [Authorize, evaluations_insert, List.any_eq_true, Bool.or_eq_true,
    Bool.and_eq_true, beq_iff_eq]

/-- A concrete datastore for the evaluation-visibility counterexample:
subject 10, experiment 20 under it, submission 30 by student 2, faculty 3
assigned to subject 10, and an evaluation of submission 30 authored by a
different faculty 4. -/
def dbC4 : DB :=
  { users := [2, 3, 4],
    profiles := [⟨2, "A", Role.student, none⟩, ⟨3, "F", Role.faculty, none⟩,
      ⟨4, "F2", Role.faculty, none⟩],
    subjects := [⟨10, "U", none, none⟩],
    experiments := [⟨20, 10, "E", none⟩],
    studentSubjects := [⟨50, 2, 10⟩],
    facultySubjects := [⟨7, 3, 10⟩],
    submissions := [⟨30, 20, 2, none, none, none, Status.submitted⟩],
    evaluations := [⟨40, 30, 4, some 85, some "g"⟩] }

/-- The evaluation row of `dbC4`, authored by faculty 4. -/
def evC4 : Evaluation := ⟨40, 30, 4, some 85, some "g"⟩

/-- C4 counterexample: faculty 3 holds an Assignment edge to subject 10,
submission 30 sits under subject 10, yet selecting the evaluation of
submission 30 is denied to faculty 3, because the select policy only
admits admins, the authoring faculty and the owning student. -/
theorem evaluations_select_assigned_faculty_denied :
    is_faculty_for_subject dbC4 3 10 = true ∧
      is_admin dbC4 3 = false ∧
      Authorize dbC4 3 Action.select (Resource.evaluation evC4) = false := by
  decide

/-- C4 amended: selecting an Evaluation is authorized exactly for an
admin, the evaluation's authoring faculty, or the owning student of the
evaluated submission; an Assignment edge to the subject grants no select
right by itself. -/
theorem evaluations_select_characterization (db : DB) (uid : Nat)
    (row : Evaluation) :
    Authorize db uid Action.select (Resource.evaluation row) = true ↔
      (is_admin db uid = true ∨ row.faculty_id = uid ∨
        ∃ es ∈ db.submissions,
          es.id = row.submission_id ∧ es.student_id = uid) := by
  simp [Authorize, evaluations_select, List.any_eq_true, Bool.or_eq_true,
    Bool.and_eq_true, beq_iff_eq, or_assoc]

/-- C7: the provisioning trigger inserts exactly one profile for the new
identity, with the requested role when present (defaulting to `student`)
and the metadata department when present (defaulting to `CSE`). -/
theorem handle_new_user_provisions (db : DB) (ev : SignupEvent) :
    ∃ p : Profile,
      (handle_new_user db ev).profiles = p :: db.profiles ∧
        p.id = ev.id ∧
        p.full_name = ev.full_name.getD "" ∧
        p.role = ev.role.getD Role.student ∧
        p.department = some (ev.department.getD Department.CSE) :=
  ⟨_, rfl, rfl, rfl, rfl, rfl⟩

/-- C9: an Enrollment edge may be inserted exactly when the caller is the
enrolled student or an admin (the second migration's policy), may be
deleted exactly by an admin, and in particular a student's
self-enrollment insert is authorized. -/
theorem enrollment_policy_characterization (db : DB) (uid : Nat)
    (row : Enrollment) :
    (Authorize db uid Action.insert (Resource.enrollment row) = true ↔
        (row.student_id = uid ∨ is_admin db uid = true)) ∧
      (Authorize db uid Action.delete (Resource.enrollment row) = true ↔
        is_admin db uid = true) ∧
      (row.student_id = uid →
        Authorize db uid Action.insert (Resource.enrollment row) = true) := by
  refine ⟨?_, ?_, ?_⟩
  · simp [Authorize, student_subjects_insert_v2, Bool.or_eq_true, beq_iff_eq]
  · simp [Authorize, student_subjects_delete]
  · intro h
    simp [Authorize, student_subjects_insert_v2, h]

/-- C9 witness: a concrete non-admin student self-enrollment is
authorized under the second migration's policy. -/
theorem enrollment_policy_characterization_witness :
    Authorize dbC4 2 Action.insert (Resource.enrollment ⟨51, 2, 10⟩) = true :=
  (enrollment_policy_characterization dbC4 2 ⟨51, 2, 10⟩).2.2 rfl

/-- A concrete datastore for the resubmission counterexample: student 5
owns submission 1 for experiment 20, already evaluated. -/
def dbC2 : DB :=
  { users := [5],
    profiles := [⟨5, "S", Role.student, none⟩],
    subjects := [⟨10, "U", none, none⟩],
    experiments := [⟨20, 10, "E", none⟩],
    studentSubjects := [⟨60, 5, 10⟩],
    facultySubjects := [],
    submissions := [⟨1, 20, 5, some "old", some "python", none, Status.evaluated⟩],
    evaluations := [⟨40, 1, 3, some 85, some "g"⟩] }

/-- C2 counterexample: submission 1 is `evaluated`, its owning student 5
is not an admin, and yet the student's resubmission through `submitCode`
moves the status back to `submitted`. -/
theorem submitCode_flips_evaluated_back :
    (dbC2.submissions.map (fun s => s.status) = [Status.evaluated]) ∧
      is_admin dbC2 5 = false ∧
      ((submitCode dbC2 5 20 99 "new" "python").submissions.map
          (fun s => s.status) = [Status.submitted]) := by
  decide

/-- C2 amended: a student's resubmission of an existing Submission
unconditionally writes status `submitted`, whatever the prior status —
including `evaluated`; the update policy permits the owning student to
do so. -/
theorem submitCode_resubmission_sets_submitted (db : DB)
    (uid expId newId : Nat) (codeText lang : String) (sub : Submission)
    (h : db.submissions.find? (fun s =>
        s.student_id == uid && s.experiment_id == expId &&
          submissions_select db uid s) = some sub) :
    ∃ s ∈ (submitCode db uid expId newId codeText lang).submissions,
      s.id = sub.id ∧ s.status = Status.submitted := by
  have hmem := List.mem_of_find?_eq_some h
  have hpred := List.find?_some h
  simp only [Bool.and_eq_true, beq_iff_eq] at hpred
  obtain ⟨⟨h1, _⟩, _⟩ := hpred
  unfold submitCode
  rw [h]
  refine ⟨{ sub with code := some codeText, language := some lang,
                     status := Status.submitted }, ?_, rfl, rfl⟩
  refine List.mem_map.mpr ⟨sub, hmem, ?_⟩
  simp [submissions_update, h1]

/-- C2 amended witness: the student resubmission on `dbC2` leaves a
row with the old identifier and status `submitted`. -/
theorem submitCode_resubmission_sets_submitted_witness :
    ∃ s ∈ (submitCode dbC2 5 20 99 "new" "python").submissions,
      s.id = 1 ∧ s.status = Status.submitted :=
  submitCode_resubmission_sets_submitted dbC2 5 20 99 "new" "python"
    ⟨1, 20, 5, some "old", some "python", none, Status.evaluated⟩ (by decide)

/-- A concrete datastore for the admin-authorization counterexample:
principal 1 is an admin, principal 2 a student. -/
def dbC3 : DB :=
  { users := [1, 2],
    profiles := [⟨1, "Root", Role.admin, none⟩, ⟨2, "S", Role.student, none⟩],
    subjects := [⟨10, "U", none, none⟩],
    experiments := [⟨20, 10, "E", none⟩],
    studentSubjects := [],
    facultySubjects := [],
    submissions := [],
    evaluations := [] }

/-- C3 counterexample: admin 1 is denied inserting a Submission on behalf
of student 2, because the `submissions_insert` check requires
`student_id = auth.uid()` with no admin clause; admin 1 is also denied
deleting an Evaluation, for which no policy exists at all. -/
theorem admin_not_authorized_everywhere :
    is_admin dbC3 1 = true ∧
      Authorize dbC3 1 Action.insert
        (Resource.submission ⟨9, 20, 2, none, none, none, Status.submitted⟩)
        = false ∧
      Authorize dbC3 1 Action.delete
        (Resource.evaluation ⟨40, 9, 1, some 85, some "g"⟩) = false := by
  decide

/-- Whether an action-resource pair is a Submission insert, the one
policied pair whose check ignores `is_admin`. -/
def isSubmissionInsert (a : Action) (r : Resource) : Bool :=
  match a, r with
  | Action.insert, Resource.submission _ => true
  | _, _ => false

/-- C3 amended: an admin is authorized for every action-resource pair for
which the migrations create a policy, except Submission insert (whose
check requires the new row's `student_id` to equal the caller, admins
included); pairs with no policy are denied to everyone, admins
included. -/
theorem admin_authorized_on_policied_pairs (db : DB) (uid : Nat)
    (a : Action) (r : Resource) (h1 : is_admin db uid = true)
    (h2 : hasPolicy a r = true) (h3 : isSubmissionInsert a r = false) :
    Authorize db uid a r = true := by
  cases a <;> cases r <;>
    simp_all [Authorize, hasPolicy, isSubmissionInsert, profiles_select,
      profiles_update_own, subjects_admin_only, experiments_write,
      experiments_delete, student_subjects_select, student_subjects_insert_v2,
      student_subjects_delete, faculty_subjects_select,
      faculty_subjects_admin_only, submissions_select, submissions_update,
      evaluations_select, evaluations_insert, evaluations_update]

/-- C3 amended witness: admin 1 may delete a subject. -/
theorem admin_authorized_on_policied_pairs_witness :
    Authorize dbC3 1 Action.delete (Resource.subject ⟨10, "U", none, none⟩)
      = true :=
  admin_authorized_on_policied_pairs dbC3 1 Action.delete
    (Resource.subject ⟨10, "U", none, none⟩) (by decide) (by decide) (by decide)

/-- A concrete datastore for the marks-boundary acceptance cases: faculty
3 is assigned to subject 10, submission 30 sits under experiment 20 of
subject 10, and no evaluation exists yet. -/
def dbC6 : DB :=
  { users := [2, 3],
    profiles := [⟨2, "A", Role.student, none⟩, ⟨3, "F", Role.faculty, none⟩],
    subjects := [⟨10, "U", none, none⟩],
    experiments := [⟨20, 10, "E", none⟩],
    studentSubjects := [⟨50, 2, 10⟩],
    facultySubjects := [⟨7, 3, 10⟩],
    submissions := [⟨30, 20, 2, some "c", some "python", none, Status.submitted⟩],
    evaluations := [] }

/-- Helper for C6: any state reached through a successful
`submitEvaluation` call holds only evaluation rows that either predate
the call or carry the freshly validated marks, which lie in `[0, 100]`. -/
theorem submitEvaluation_ok_marks (db : DB) (uid subId newId : Nat)
    (m : Int) (fb : String) (db1 : DB)
    (h : submitEvaluation db uid subId newId m fb = Except.ok db1) :
    ∀ ev ∈ db1.evaluations,
      ev ∈ db.evaluations ∨ (ev.marks = some m ∧ 0 ≤ m ∧ m ≤ 100) := by
  intro ev hmem
  unfold submitEvaluation at h
  split at h
  · exact absurd h (by simp)
  case isFalse hrange =>
  rw [Bool.or_eq_true, decide_eq_true_eq, decide_eq_true_eq, not_or,
    Int.not_lt, Int.not_lt] at hrange
  split at h
  · exact absurd h (by simp)
  split at h
  case h_1 existing hfind =>
    rw [Except.ok.injEq] at h
    subst h
    have hmem2 : ev ∈ db.evaluations.map (fun ev =>
        if ev.id == existing.id && evaluations_update db uid ev then
          { ev with marks := some m, feedback := some (jsTrim fb) }
        else ev) := hmem
    obtain ⟨ev0, hmem0, heq⟩ := List.mem_map.mp hmem2
    by_cases hc : (ev0.id == existing.id && evaluations_update db uid ev0)
        = true
    · rw [if_pos hc] at heq
      right
      exact ⟨by rw [← heq], hrange.1, hrange.2⟩
    · rw [if_neg hc] at heq
      left
      rw [← heq]
      exact hmem0
  case h_2 hfind =>
    by_cases hins : evaluations_insert db uid
        ⟨newId, subId, uid, some m, some (jsTrim fb)⟩ = true
    · rw [if_pos hins] at h
      by_cases hany : (db.evaluations.any fun ev => ev.submission_id == subId)
          = true
      · rw [if_pos hany] at h
        exact absurd h (by simp)
      · rw [if_neg hany] at h
        rw [Except.ok.injEq] at h
        subst h
        have hmem2 : ev ∈ (⟨newId, subId, uid, some m, some (jsTrim fb)⟩ :
            Evaluation) :: db.evaluations := hmem
        rcases List.mem_cons.mp hmem2 with hhead | htail
        · right
          subst hhead
          exact ⟨rfl, hrange.1, hrange.2⟩
        · left
          exact htail
    · rw [if_neg hins] at h
      exact absurd h (by simp)

/-- C6: marks `-1` and `101` are rejected as a validation error with
nothing written; marks `0` and `100` are accepted on a concrete
well-formed state; and every evaluation row present after a successful
write either predates it or stores the validated marks, which lie in
`[0, 100]`. -/
theorem evaluation_marks_boundary :
    (∀ (db : DB) (uid subId newId : Nat) (fb : String),
        submitEvaluation db uid subId newId (-1) fb
          = Except.error WriteError.validation) ∧
      (∀ (db : DB) (uid subId newId : Nat) (fb : String),
        submitEvaluation db uid subId newId 101 fb
          = Except.error WriteError.validation) ∧
      writeSucceeded (submitEvaluation dbC6 3 30 41 0 "ok") = true ∧
      writeSucceeded (submitEvaluation dbC6 3 30 41 100 "ok") = true ∧
      (∀ (db : DB) (uid subId newId : Nat) (m : Int) (fb : String) (db1 : DB),
        submitEvaluation db uid subId newId m fb = Except.ok db1 →
          ∀ ev ∈ db1.evaluations,
            ev ∈ db.evaluations ∨ (ev.marks = some m ∧ 0 ≤ m ∧ m ≤ 100)) := by
  refine ⟨?_, ?_, by decide, by decide, submitEvaluation_ok_marks⟩
  · intro db uid subId newId fb
    simp [submitEvaluation]
  · intro db uid subId newId fb
    simp [submitEvaluation]

/-- C6 witness: a concrete rejected write and a concrete accepted write,
both by applying the boundary theorem. -/
theorem evaluation_marks_boundary_witness :
    submitEvaluation dbC6 3 30 41 (-1) "ok"
      = Except.error WriteError.validation :=
  evaluation_marks_boundary.1 dbC6 3 30 41 "ok"

/-- C8: a missing code field or a missing language field yields the
HTTP 400 required-fields error; a present but unsupported language tag
yields an HTTP 400 error; and every forwarded request has a truthy code
and a supported language. -/
theorem execute_request_validation :
    (∀ req : ExecRequest, req.code = none →
        handleExecute req = ExecOutcome.clientError 400
          "Code and language are required") ∧
      (∀ req : ExecRequest, req.language = none →
        handleExecute req = ExecOutcome.clientError 400
          "Code and language are required") ∧
      (∀ (req : ExecRequest) (l : String), req.language = some l →
        LANGUAGE_MAP (jsToLower l) = none →
          ∃ msg, handleExecute req = ExecOutcome.clientError 400 msg) ∧
      (∀ (req : ExecRequest) (lang ver c s : String),
        handleExecute req = ExecOutcome.forwarded lang ver c s →
          truthyField req.code = true ∧
            ∃ l, req.language = some l ∧ LANGUAGE_MAP (jsToLower l) ≠ none) := by
  refine ⟨?_, ?_, ?_, ?_⟩
  · intro req h
    simp [handleExecute, truthyField, h]
  · intro req h
    simp [handleExecute, truthyField, h]
  · intro req l hl hmap
    by_cases hc : (!(truthyField req.code) || !(truthyField req.language))
        = true
    · refine ⟨"Code and language are required", ?_⟩
      unfold handleExecute
      rw [if_pos hc]
    · refine ⟨"Unsupported language: " ++ l, ?_⟩
      unfold handleExecute
      rw [if_neg hc, hl]
      simp [hmap]
  · intro req lang ver c s h
    unfold handleExecute at h
    split at h
    · exact absurd h (by simp)
    case isFalse hc =>
    rw [Bool.or_eq_true, not_or, Bool.not_eq_true', Bool.not_eq_true',
      Bool.not_eq_false, Bool.not_eq_false] at hc
    refine ⟨hc.1, ?_⟩
    cases hlang : req.language with
    | none => rw [hlang] at hc; exact absurd hc.2 (by simp [truthyField])
    | some l =>
        refine ⟨l, rfl, ?_⟩
        rw [hlang] at h
        simp only [Option.getD_some] at h
        intro hnone
        rw [hnone] at h
        exact absurd h (by simp)

/-- C8 witness: a request with no code field is rejected with the
required-fields error, by applying the validation theorem. -/
theorem execute_request_validation_witness :
    handleExecute ⟨none, some "python", none⟩
      = ExecOutcome.clientError 400 "Code and language are required" :=
  execute_request_validation.1 ⟨none, some "python", none⟩ rfl

/-- Unfolding of `refIntegrity` into the per-table parent conditions. -/
theorem refIntegrity_iff (db : DB) : refIntegrity db = true ↔
    ((∀ p ∈ db.profiles, ∃ u ∈ db.users, u = p.id) ∧
      (∀ e ∈ db.experiments, ∃ s ∈ db.subjects, s.id = e.subject_id) ∧
      (∀ en ∈ db.studentSubjects,
        (∃ u ∈ db.users, u = en.student_id) ∧
          ∃ s ∈ db.subjects, s.id = en.subject_id) ∧
      (∀ a ∈ db.facultySubjects,
        (∃ u ∈ db.users, u = a.faculty_id) ∧
          ∃ s ∈ db.subjects, s.id = a.subject_id) ∧
      (∀ sub ∈ db.submissions,
        (∃ e ∈ db.experiments, e.id = sub.experiment_id) ∧
          ∃ u ∈ db.users, u = sub.student_id) ∧
      (∀ v ∈ db.evaluations,
        (∃ s ∈ db.submissions, s.id = v.submission_id) ∧
          ∃ u ∈ db.users, u = v.faculty_id)) := by
  simp only [refIntegrity, List.all_eq_true, List.any_eq_true,
    Bool.and_eq_true, beq_iff_eq]
  tauto

/-- A row kept by a filter was present before and passes the filter. -/
theorem mem_of_mem_filter_keep {α : Type} {l : List α} {q : α → Bool} {x : α}
    (hx : x ∈ l.filter q) : x ∈ l ∧ q x = true :=
  List.mem_filter.mp hx

/-- A false `any` is false at every member. -/
theorem any_false_at {α : Type} {l : List α} {p : α → Bool}
    (h : l.any p = false) {x : α} (hx : x ∈ l) : p x = false := by
  simpa using List.any_eq_false.mp h x hx

/-- Every delete, with its declared cascades, preserves referential
integrity. -/
theorem delete_preserves_refIntegrity (db : DB) (op : DelOp)
    (h : refIntegrity db = true) : refIntegrity (applyDelete db op) = true := by
  rw [refIntegrity_iff] at h
  obtain ⟨hp, he, hen, hfa, hsub, hev⟩ := h
  rw [refIntegrity_iff]
  cases op with
  | user u =>
      simp only [applyDelete]
      refine ⟨?_, ?_, ?_, ?_, ?_, ?_⟩
      · intro p hp1
        obtain ⟨hp0, hkeep⟩ := List.mem_filter.mp hp1
        obtain ⟨x, hx, hxe⟩ := hp p hp0
        subst hxe
        exact ⟨p.id, List.mem_filter.mpr ⟨hx, hkeep⟩, rfl⟩
      · exact he
      · intro en hen1
        obtain ⟨hen0, hkeep⟩ := List.mem_filter.mp hen1
        obtain ⟨⟨x, hx, hxe⟩, hsubj⟩ := hen en hen0
        subst hxe
        exact ⟨⟨en.student_id, List.mem_filter.mpr ⟨hx, hkeep⟩, rfl⟩, hsubj⟩
      · intro a ha1
        obtain ⟨ha0, hkeep⟩ := List.mem_filter.mp ha1
        obtain ⟨⟨x, hx, hxe⟩, hsubj⟩ := hfa a ha0
        subst hxe
        exact ⟨⟨a.faculty_id, List.mem_filter.mpr ⟨hx, hkeep⟩, rfl⟩, hsubj⟩
      · intro s hs1
        obtain ⟨hs0, hkeep⟩ := List.mem_filter.mp hs1
        obtain ⟨hexp, x, hx, hxe⟩ := hsub s hs0
        subst hxe
        exact ⟨hexp, s.student_id, List.mem_filter.mpr ⟨hx, hkeep⟩, rfl⟩
      · intro v hv1
        obtain ⟨hv0, hkeep⟩ := List.mem_filter.mp hv1
        rw [Bool.and_eq_true] at hkeep
        obtain ⟨hk1, hk2⟩ := hkeep
        obtain ⟨⟨s0, hs0, hs0id⟩, x, hx, hxe⟩ := hev v hv0
        subst hxe
        rw [Bool.not_eq_true'] at hk2
        refine ⟨⟨s0, List.mem_filter.mpr ⟨hs0, ?_⟩, hs0id⟩,
          v.faculty_id, List.mem_filter.mpr ⟨hx, hk1⟩, rfl⟩
        rw [Bool.not_eq_true', beq_eq_false_iff_ne]
        intro heq
        have hdead : s0 ∈ db.submissions.filter (fun s => s.student_id == u) :=
          List.mem_filter.mpr ⟨hs0, beq_iff_eq.mpr heq⟩
        have := any_false_at hk2 hdead
        rw [beq_iff_eq.mpr hs0id] at this
        exact absurd this (by simp)
  | subject sid =>
      simp only [applyDelete]
      refine ⟨hp, ?_, ?_, ?_, ?_, ?_⟩
      · intro e he1
        obtain ⟨he0, hkeep⟩ := List.mem_filter.mp he1
        obtain ⟨s, hs, hsid⟩ := he e he0
        refine ⟨s, List.mem_filter.mpr ⟨hs, ?_⟩, hsid⟩
        rw [Bool.not_eq_true', beq_eq_false_iff_ne]
        intro heq
        rw [Bool.not_eq_true'] at hkeep
        rw [heq] at hsid
        rw [← hsid] at hkeep
        simp at hkeep
      · intro en hen1
        obtain ⟨hen0, hkeep⟩ := List.mem_filter.mp hen1
        obtain ⟨huser, s, hs, hsid⟩ := hen en hen0
        refine ⟨huser, s, List.mem_filter.mpr ⟨hs, ?_⟩, hsid⟩
        rw [Bool.not_eq_true', beq_eq_false_iff_ne]
        intro heq
        rw [Bool.not_eq_true'] at hkeep
        rw [heq] at hsid
        rw [← hsid] at hkeep
        simp at hkeep
      · intro a ha1
        obtain ⟨ha0, hkeep⟩ := List.mem_filter.mp ha1
        obtain ⟨huser, s, hs, hsid⟩ := hfa a ha0
        refine ⟨huser, s, List.mem_filter.mpr ⟨hs, ?_⟩, hsid⟩
        rw [Bool.not_eq_true', beq_eq_false_iff_ne]
        intro heq
        rw [Bool.not_eq_true'] at hkeep
        rw [heq] at hsid
        rw [← hsid] at hkeep
        simp at hkeep
      · intro s hs1
        obtain ⟨hs0, hkeep⟩ := List.mem_filter.mp hs1
        obtain ⟨⟨e0, he0, he0id⟩, huser⟩ := hsub s hs0
        rw [Bool.not_eq_true'] at hkeep
        refine ⟨⟨e0, List.mem_filter.mpr ⟨he0, ?_⟩, he0id⟩, huser⟩
        rw [Bool.not_eq_true', beq_eq_false_iff_ne]
        intro heq
        have hdead : e0 ∈ db.experiments.filter (fun e => e.subject_id == sid) :=
          List.mem_filter.mpr ⟨he0, beq_iff_eq.mpr heq⟩
        have := any_false_at hkeep hdead
        rw [beq_iff_eq.mpr he0id] at this
        exact absurd this (by simp)
      · intro v hv1
        obtain ⟨hv0, hkeep⟩ := List.mem_filter.mp hv1
        obtain ⟨⟨s0, hs0, hs0id⟩, huser⟩ := hev v hv0
        rw [Bool.not_eq_true'] at hkeep
        refine ⟨⟨s0, List.mem_filter.mpr ⟨hs0, ?_⟩, hs0id⟩, huser⟩
        rw [Bool.not_eq_true']
        cases hda : (db.experiments.filter (fun e => e.subject_id == sid)).any
            (fun e => e.id == s0.experiment_id) with
        | false => rfl
        | true =>
            exfalso
            have hdead : s0 ∈ db.submissions.filter (fun s =>
                (db.experiments.filter (fun e => e.subject_id == sid)).any
                  (fun e => e.id == s.experiment_id)) :=
              List.mem_filter.mpr ⟨hs0, hda⟩
            have := any_false_at hkeep hdead
            rw [beq_iff_eq.mpr hs0id] at this
            exact absurd this (by simp)
  | experiment eid =>
      simp only [applyDelete]
      refine ⟨hp, ?_, hen, hfa, ?_, ?_⟩
      · intro e he1
        exact he e (List.mem_filter.mp he1).1
      · intro s hs1
        obtain ⟨hs0, hkeep⟩ := List.mem_filter.mp hs1
        obtain ⟨⟨e0, he0, he0id⟩, huser⟩ := hsub s hs0
        refine ⟨⟨e0, List.mem_filter.mpr ⟨he0, ?_⟩, he0id⟩, huser⟩
        rw [Bool.not_eq_true', beq_eq_false_iff_ne]
        intro heq
        rw [Bool.not_eq_true'] at hkeep
        rw [heq] at he0id
        rw [← he0id] at hkeep
        simp at hkeep
      · intro v hv1
        obtain ⟨hv0, hkeep⟩ := List.mem_filter.mp hv1
        obtain ⟨⟨s0, hs0, hs0id⟩, huser⟩ := hev v hv0
        rw [Bool.not_eq_true'] at hkeep
        refine ⟨⟨s0, List.mem_filter.mpr ⟨hs0, ?_⟩, hs0id⟩, huser⟩
        rw [Bool.not_eq_true', beq_eq_false_iff_ne]
        intro heq
        have hdead : s0 ∈ db.submissions.filter (fun s =>
            s.experiment_id == eid) :=
          List.mem_filter.mpr ⟨hs0, beq_iff_eq.mpr heq⟩
        have := any_false_at hkeep hdead
        rw [beq_iff_eq.mpr hs0id] at this
        exact absurd this (by simp)
  | enrollment i =>
      simp only [applyDelete]
      exact ⟨hp, he, fun en hen1 => hen en (List.mem_filter.mp hen1).1,
        hfa, hsub, hev⟩
  | assignment i =>
      simp only [applyDelete]
      exact ⟨hp, he, hen, fun a ha1 => hfa a (List.mem_filter.mp ha1).1,
        hsub, hev⟩
  | submission sid =>
      simp only [applyDelete]
      refine ⟨hp, he, hen, hfa, ?_, ?_⟩
      · intro s hs1
        exact hsub s (List.mem_filter.mp hs1).1
      · intro v hv1
        obtain ⟨hv0, hkeep⟩ := List.mem_filter.mp hv1
        obtain ⟨⟨s0, hs0, hs0id⟩, huser⟩ := hev v hv0
        refine ⟨⟨s0, List.mem_filter.mpr ⟨hs0, ?_⟩, hs0id⟩, huser⟩
        rw [Bool.not_eq_true', beq_eq_false_iff_ne]
        intro heq
        rw [Bool.not_eq_true'] at hkeep
        rw [heq] at hs0id
        rw [← hs0id] at hkeep
        simp at hkeep
  | evaluation vid =>
      simp only [applyDelete]
      exact ⟨hp, he, hen, hfa, hsub,
        fun v hv1 => hev v (List.mem_filter.mp hv1).1⟩

/-- C10: deleting a Subject removes every Experiment under it, every
Submission under those Experiments and every Evaluation under those
Submissions, together with every Enrollment and Assignment edge on the
Subject; and every delete, on every table, preserves referential
integrity. -/
theorem subject_delete_cascades_and_integrity (db : DB) (sid : Nat) :
    ((∀ e ∈ (applyDelete db (DelOp.subject sid)).experiments,
        e.subject_id ≠ sid) ∧
      (∀ en ∈ (applyDelete db (DelOp.subject sid)).studentSubjects,
        en.subject_id ≠ sid) ∧
      (∀ a ∈ (applyDelete db (DelOp.subject sid)).facultySubjects,
        a.subject_id ≠ sid) ∧
      (∀ s ∈ (applyDelete db (DelOp.subject sid)).submissions,
        ∀ e ∈ db.experiments, e.id = s.experiment_id → e.subject_id ≠ sid) ∧
      (∀ v ∈ (applyDelete db (DelOp.subject sid)).evaluations,
        ∀ s ∈ db.submissions, s.id = v.submission_id →
          ∀ e ∈ db.experiments, e.id = s.experiment_id →
            e.subject_id ≠ sid)) ∧
      (∀ op : DelOp, refIntegrity db = true →
        refIntegrity (applyDelete db op) = true) := by
  refine ⟨⟨?_, ?_, ?_, ?_, ?_⟩, fun op h => delete_preserves_refIntegrity db op h⟩
  · intro e he1
    have hkeep := (List.mem_filter.mp he1).2
    rw [Bool.not_eq_true'] at hkeep
    exact beq_eq_false_iff_ne.mp hkeep
  · intro en hen1
    have hkeep := (List.mem_filter.mp hen1).2
    rw [Bool.not_eq_true'] at hkeep
    exact beq_eq_false_iff_ne.mp hkeep
  · intro a ha1
    have hkeep := (List.mem_filter.mp ha1).2
    rw [Bool.not_eq_true'] at hkeep
    exact beq_eq_false_iff_ne.mp hkeep
  · intro s hs1 e he heid heq
    have hkeep := (List.mem_filter.mp hs1).2
    rw [Bool.not_eq_true'] at hkeep
    have hdead : e ∈ db.experiments.filter (fun e => e.subject_id == sid) :=
      List.mem_filter.mpr ⟨he, beq_iff_eq.mpr heq⟩
    have := any_false_at hkeep hdead
    rw [beq_iff_eq.mpr heid] at this
    exact absurd this (by simp)
  · intro v hv1 s hs hsid e he heid heq
    have hkeep := (List.mem_filter.mp hv1).2
    rw [Bool.not_eq_true'] at hkeep
    have hdeadE : e ∈ db.experiments.filter (fun e => e.subject_id == sid) :=
      List.mem_filter.mpr ⟨he, beq_iff_eq.mpr heq⟩
    have hdeadS : s ∈ db.submissions.filter (fun s =>
        (db.experiments.filter (fun e => e.subject_id == sid)).any
          (fun e => e.id == s.experiment_id)) :=
      List.mem_filter.mpr ⟨hs,
        List.any_eq_true.mpr ⟨e, hdeadE, beq_iff_eq.mpr heid⟩⟩
    have := any_false_at hkeep hdeadS
    rw [beq_iff_eq.mpr hsid] at this
    exact absurd this (by simp)

/-- C10 witness: a concrete subject delete on a populated datastore
preserves referential integrity, by applying the cascade theorem. -/
theorem subject_delete_cascades_and_integrity_witness :
    refIntegrity (applyDelete dbC4 (DelOp.subject 10)) = true :=
  (subject_delete_cascades_and_integrity dbC4 10).2 (DelOp.subject 10)
    (by decide)

/-- Two successive evaluation-creation calls for the same submission, as
issued by the faculty evaluation page, observed after both settle. -/
def createEvaluationTwice (db : DB) (uid subId nid1 nid2 : Nat) (m : Int)
    (fb : String) : DB :=
  afterCall (afterCall db (submitEvaluation db uid subId nid1 m fb))
    (submitEvaluation (afterCall db (submitEvaluation db uid subId nid1 m fb))
      uid subId nid2 m fb)

/-- With marks in range and nonempty feedback, `submitEvaluation` reduces
to its lookup-then-write core. -/
theorem submitEvaluation_unfold (db : DB) (uid subId nid : Nat) (m : Int)
    (fb : String) (hm0 : 0 ≤ m) (hm1 : m ≤ 100) (hfb : jsTrim fb ≠ "") :
    submitEvaluation db uid subId nid m fb =
      match db.evaluations.find? (fun ev =>
          ev.submission_id == subId && evaluations_select db uid ev) with
      | some existing =>
          Except.ok (flipStatus
            { db with evaluations := db.evaluations.map (fun ev =>
                if ev.id == existing.id && evaluations_update db uid ev then
                  { ev with marks := some m, feedback := some (jsTrim fb) }
                else ev) } uid subId)
      | none =>
          if evaluations_insert db uid
              ⟨nid, subId, uid, some m, some (jsTrim fb)⟩ then
            if db.evaluations.any (fun ev => ev.submission_id == subId) then
              Except.error WriteError.conflict
            else
              Except.ok (flipStatus
                { db with evaluations :=
                    ⟨nid, subId, uid, some m, some (jsTrim fb)⟩
                      :: db.evaluations } uid subId)
          else Except.error WriteError.denied := by
  unfold submitEvaluation
  rw [if_neg (by simp only [Bool.or_eq_true, decide_eq_true_eq]; omega),
    if_neg (by simpa using hfb)]

/-- Mapping a `submission_id`-preserving function over the rows does not
change how many carry a given `submission_id`. -/
theorem length_filter_map_preserve (l : List Evaluation)
    (g : Evaluation → Evaluation) (subId : Nat)
    (hg : ∀ ev, (g ev).submission_id = ev.submission_id) :
    ((l.map g).filter (fun ev => ev.submission_id == subId)).length
      = (l.filter (fun ev => ev.submission_id == subId)).length := by
  induction l with
  | nil => rfl
  | cons a t ih =>
      simp only [List.map_cons, List.filter_cons, hg a]
      by_cases hc : (a.submission_id == subId) = true
      · simp [hc, ih]
      · simp [hc, ih]

/-- A row with the submission identifier puts the count at one or more. -/
theorem countEval_pos_of_any (db : DB) (subId : Nat)
    (h : db.evaluations.any (fun ev => ev.submission_id == subId) = true) :
    1 ≤ countEval db subId := by
  obtain ⟨ev, hmem, hp⟩ := List.any_eq_true.mp h
  have : ev ∈ db.evaluations.filter (fun ev => ev.submission_id == subId) :=
    List.mem_filter.mpr ⟨hmem, hp⟩
  exact Nat.succ_le_of_lt (List.length_pos.mpr (List.ne_nil_of_mem this))

/-- No row with the submission identifier puts the count at zero. -/
theorem countEval_zero_of_any_false (db : DB) (subId : Nat)
    (h : db.evaluations.any (fun ev => ev.submission_id == subId) = false) :
    countEval db subId = 0 := by
  rw [countEval, List.length_eq_zero]
  rw [List.filter_eq_nil_iff]
  intro a ha
  simpa using any_false_at h ha

/-- The in-place update path of `submitEvaluation` leaves the count of
rows keyed by any submission identifier unchanged. -/
theorem countEval_update_path (dbx : DB) (u s tid subId : Nat) (m' : Int)
    (fb' : String) :
    countEval (flipStatus
      { dbx with evaluations := dbx.evaluations.map (fun ev =>
          if ev.id == tid && evaluations_update dbx u ev then
            { ev with marks := some m', feedback := some fb' }
          else ev) } u s) subId = countEval dbx subId := by
  show ((dbx.evaluations.map (fun ev =>
      if ev.id == tid && evaluations_update dbx u ev then
        { ev with marks := some m', feedback := some fb' }
      else ev)).filter (fun ev => ev.submission_id == subId)).length
    = countEval dbx subId
  rw [length_filter_map_preserve]
  · rfl
  · intro ev
    by_cases hc : (ev.id == tid && evaluations_update dbx u ev) = true <;>
      simp [hc]

/-- Mapping a `submission_id`-preserving function over the rows does not
change whether any row carries a given `submission_id`. -/
theorem any_submission_map_preserve (l : List Evaluation)
    (g : Evaluation → Evaluation) (subId : Nat)
    (hg : ∀ ev, (g ev).submission_id = ev.submission_id) :
    (l.map g).any (fun ev => ev.submission_id == subId)
      = l.any (fun ev => ev.submission_id == subId) := by
  induction l with
  | nil => rfl
  | cons a t ih => simp only [List.map_cons, List.any_cons, hg a, ih]

/-- After the in-place update path, a row keyed by the submission
identifier exists exactly when one existed before. -/
theorem any_submission_flip_update (dbx : DB) (u s tid subId : Nat)
    (m' : Int) (fb' : String) :
    ((flipStatus
      { dbx with evaluations := dbx.evaluations.map (fun ev =>
          if ev.id == tid && evaluations_update dbx u ev then
            { ev with marks := some m', feedback := some fb' }
          else ev) } u s).evaluations.any (fun ev => ev.submission_id == subId))
      = dbx.evaluations.any (fun ev => ev.submission_id == subId) := by
  show ((dbx.evaluations.map (fun ev =>
      if ev.id == tid && evaluations_update dbx u ev then
        { ev with marks := some m', feedback := some fb' }
      else ev)).any (fun ev => ev.submission_id == subId)) = _
  apply any_submission_map_preserve
  intro ev
  by_cases hc : (ev.id == tid && evaluations_update dbx u ev) = true <;>
    simp [hc]

/-- After the insert path, a row keyed by the submission identifier
exists. -/
theorem any_submission_flip_insert (dbx : DB) (u s nid subId : Nat)
    (m' : Int) (fb' : String) :
    ((flipStatus
      { dbx with evaluations :=
          (⟨nid, subId, u, some m', some fb'⟩ : Evaluation)
            :: dbx.evaluations } u s).evaluations.any
        (fun ev => ev.submission_id == subId)) = true := by
  show (((⟨nid, subId, u, some m', some fb'⟩ : Evaluation)
    :: dbx.evaluations).any (fun ev => ev.submission_id == subId)) = true
  simp

/-- The insert path takes a state with no row for the submission to a
state with exactly one. -/
theorem countEval_insert_path (dbx : DB) (u s nid subId : Nat) (m' : Int)
    (fb' : String) (h0 : countEval dbx subId = 0) :
    countEval (flipStatus
      { dbx with evaluations :=
          (⟨nid, subId, u, some m', some fb'⟩ : Evaluation)
            :: dbx.evaluations } u s) subId = 1 := by
  have hf : (dbx.evaluations.filter
      (fun ev => ev.submission_id == subId)).length = 0 := h0
  show (((⟨nid, subId, u, some m', some fb'⟩ : Evaluation)
    :: dbx.evaluations).filter (fun ev => ev.submission_id == subId)).length
    = 1
  rw [List.filter_cons_of_pos (by simp)]
  simp [hf]

/-- A state holding exactly one evaluation row for the submission keeps
exactly one after a further `submitEvaluation` call: the lookup either
sees a row and updates in place, or misses it (the row is invisible to
the caller) and the insert dies on the uniqueness constraint. -/
theorem second_call_count (d : DB) (uid subId nid : Nat) (m : Int)
    (fb : String) (hm0 : 0 ≤ m) (hm1 : m ≤ 100) (hfb : jsTrim fb ≠ "")
    (hcnt : countEval d subId = 1)
    (hany : d.evaluations.any (fun ev => ev.submission_id == subId) = true) :
    countEval (afterCall d (submitEvaluation d uid subId nid m fb)) subId
      = 1 := by
  rw [submitEvaluation_unfold d uid subId nid m fb hm0 hm1 hfb]
  cases hfind : d.evaluations.find? (fun ev =>
      ev.submission_id == subId && evaluations_select d uid ev) with
  | some y =>
      simp only [afterCall]
      rw [countEval_update_path]
      exact hcnt
  | none =>
      rw [if_pos hany]
      by_cases hins : evaluations_insert d uid
          ⟨nid, subId, uid, some m, some (jsTrim fb)⟩ = true
      · rw [if_pos hins]
        simp only [afterCall]
        exact hcnt
      · rw [if_neg hins]
        simp only [afterCall]
        exact hcnt

/-- C5 amended: with in-range marks, nonempty feedback, the uniqueness
invariant (at most one evaluation per submission) holding beforehand,
and a caller authorized to insert the evaluation, two successive
evaluation creations for the same submission leave exactly one
evaluation row keyed by it: the second attempt is routed to an in-place
update, or fails with a conflict against the uniqueness constraint. -/
theorem evaluation_creation_idempotent (db : DB) (uid subId nid1 nid2 : Nat)
    (m : Int) (fb : String) (hm0 : 0 ≤ m) (hm1 : m ≤ 100)
    (hfb : jsTrim fb ≠ "") (hcount : countEval db subId ≤ 1)
    (hauth : evaluations_insert db uid
      ⟨nid1, subId, uid, some m, some (jsTrim fb)⟩ = true) :
    countEval (createEvaluationTwice db uid subId nid1 nid2 m fb) subId
      = 1 := by
  unfold createEvaluationTwice
  rw [submitEvaluation_unfold db uid subId nid1 m fb hm0 hm1 hfb]
  cases hfind : db.evaluations.find? (fun ev =>
      ev.submission_id == subId && evaluations_select db uid ev) with
  | some ex =>
      have hpex := List.find?_some hfind
      rw [Bool.and_eq_true] at hpex
      have hmemex := List.mem_of_find?_eq_some hfind
      have hanyx : db.evaluations.any (fun ev => ev.submission_id == subId)
          = true := List.any_eq_true.mpr ⟨ex, hmemex, hpex.1⟩
      have hcnt : countEval db subId = 1 :=
        le_antisymm hcount (countEval_pos_of_any db subId hanyx)
      simp only [afterCall]
      refine second_call_count _ uid subId nid2 m fb hm0 hm1 hfb ?_ ?_
      · rw [countEval_update_path]
        exact hcnt
      · rw [any_submission_flip_update]
        exact hanyx
  | none =>
      rw [if_pos hauth]
      by_cases hany : db.evaluations.any (fun ev => ev.submission_id == subId)
          = true
      · rw [if_pos hany]
        simp only [afterCall]
        exact second_call_count db uid subId nid2 m fb hm0 hm1 hfb
          (le_antisymm hcount (countEval_pos_of_any db subId hany)) hany
      · have hanyf : db.evaluations.any (fun ev => ev.submission_id == subId)
            = false := by
          cases hb : db.evaluations.any (fun ev => ev.submission_id == subId)
          · rfl
          · exact absurd hb hany
        have hzero : countEval db subId = 0 :=
          countEval_zero_of_any_false db subId hanyf
        rw [if_neg hany]
        simp only [afterCall]
        refine second_call_count _ uid subId nid2 m fb hm0 hm1 hfb ?_ ?_
        · exact countEval_insert_path db uid subId nid1 subId m (jsTrim fb)
            hzero
        · exact any_submission_flip_insert db uid subId nid1 subId m
            (jsTrim fb)

/-- C5 amended witness: two concrete evaluation creations on `dbC6` by
the assigned faculty leave exactly one row, by applying the idempotence
theorem. -/
theorem evaluation_creation_idempotent_witness :
    countEval (createEvaluationTwice dbC6 3 30 41 42 85 "Good") 30 = 1 :=
  evaluation_creation_idempotent dbC6 3 30 41 42 85 "Good" (by decide)
    (by decide) (by decide) (by decide) (by decide)

/-- C5 counterexample: with marks outside the valid range, both creation
attempts are rejected before any write, so the two calls settle with
zero evaluation rows for the submission, not exactly one. -/
theorem evaluation_creation_not_idempotent_for_any_marks :
    countEval (createEvaluationTwice dbC6 3 30 41 42 (-1) "ok") 30 = 0 := by
  decide

end LabCompanion
